import Mathlib

/-!
Verification development for the chat state container `useChatStore.ts`
(`src/frontend/src/stores/useChatStore.ts`).

The store is a single-threaded, event-driven state container.  We embed it
shallowly: the store state becomes a structure, each store operation and each
registered real-time event handler becomes a pure function on that state.
Asynchronous HTTP calls are modelled by passing the outcome of the network
request as an argument (the code applies its `set` calls in one serialized
sequence per outcome, per the single-threaded execution model).  Outbound
socket actions (`socket.connect()`, `socket.emit(...)`, `socket.disconnect()`)
are collected as an explicit effect list so that claims about produced events
can be stated.
-/

/-- Modelled from the spec: the `User` record type imported from `@/types`,
which is not present under `src/`.  The spec describes users only as opaque
records fetched wholesale; the store never inspects their fields, so we model
a user as a record with an identifier. -/
structure User where
  id : String
deriving DecidableEq, Repr

/-- Modelled from the spec: the `Message` record type imported from `@/types`,
which is not present under `src/`.  The spec's send-message request carries
receiver id, sender id and content, so a message is modelled with those
fields; the store itself treats messages as opaque payloads. -/
structure Message where
  senderId : String
  receiverId : String
  content : String
deriving DecidableEq, Repr

/-- The socket.io client socket, as far as the store observes it: the store
only stores the object (or `null`) and passes the authenticated `userId`
when it creates one. -/
structure Socket where
  userId : String
deriving DecidableEq, Repr

/-- The error caught by the `catch` blocks of `fetchUsers`/`fetchMessages`.
The code distinguishes exactly one shape: `error instanceof AxiosError &&
error.response` (an axios error carrying a server response, whose body may or
may not contain a `message` field — `response.data` is typed `any`); every
other thrown value falls into the second branch of the ternary. -/
inductive CaughtError where
  | axiosWithResponse (dataMessage : Option String)
  | other
deriving DecidableEq, Repr

/-- Outcome of an awaited axios GET: a successful response carrying the
payload list, or a thrown error. -/
inductive FetchOutcome (α : Type) where
  | success (data : List α)
  | failure (e : CaughtError)
deriving DecidableEq, Repr

/-- Outbound socket actions performed by the store. -/
inductive Effect where
  | connectSocket
  | emitUserConnected (userId : String)
  | emitSendMessage (receiverId senderId content : String)
  | disconnect
deriving DecidableEq, Repr

/-- `true` exactly for the effects that are emitted real-time channel events
(`socket.emit(...)`); `socket.connect()` and `socket.disconnect()` manage the
connection and emit nothing. -/
def isEmit : Effect → Bool
  | Effect.emitUserConnected _ => true
  | Effect.emitSendMessage _ _ _ => true
  | _ => false

/-- JS `Map` as an insertion-ordered association list.  `jsMapSet m k v`
models `m.set(k, v)`: it overwrites the value in place when the key is
present and appends otherwise. -/
def jsMapSet (m : List (String × String)) (k v : String) : List (String × String) :=
  match m with
  | [] => [(k, v)]
  | kv :: rest => if kv.1 = k then (k, v) :: rest else kv :: jsMapSet rest k v

/-- `new Map(entries)`: insert the pairs in order with `Map.set` semantics
(a later pair for the same key overwrites the earlier one). -/
def jsMapFromList (l : List (String × String)) : List (String × String) :=
  l.foldl (fun m kv => jsMapSet m kv.1 kv.2) []

/-- `m.get(k)`: the value stored at `k`, if any. -/
def jsMapGet (m : List (String × String)) (k : String) : Option String :=
  match m with
  | [] => none
  | kv :: rest => if kv.1 = k then some kv.2 else jsMapGet rest k

/-- The store state of `useChatStore` (`create<ChatStore>` fields).  The JS
`Set<string>` of online users is modelled as a `Finset String` (a JS set is
exactly a duplicate-free collection queried by membership), the JS
`Map<string, string>` of activities as an insertion-ordered association
list, and `null` fields as `Option`. -/
structure ChatState where
  users : List User
  isLoading : Bool
  error : Option String
  socket : Option Socket
  isConnected : Bool
  onlineUsers : Finset String
  userActivities : List (String × String)
  messages : List Message
  selectedUser : Option User
deriving DecidableEq

/-- The initial store state passed to `create`. -/
def initialState : ChatState :=
  { users := []
    isLoading := false
    error := none
    socket := none
    isConnected := false
    onlineUsers := ∅
    userActivities := []
    messages := []
    selectedUser := none }

/-- `setSelectedUser: (user) => set({ selectedUser: user })`. -/
def setSelectedUser (u : Option User) (s : ChatState) : ChatState :=
  { s with selectedUser := u }

/-- The first `set` call of both fetch operations:
`set({ isLoading: true, error: null })`. -/
def fetchBegin (s : ChatState) : ChatState :=
  { s with isLoading := true, error := none }

/-- The error value computed in both `catch` blocks:
`error instanceof AxiosError && error.response ? error.response.data.message
: fallback`.  When the axios error carries a response, the body's `message`
field is used as-is — `undefined` (here `none`) when the body has none. -/
def errMsg (e : CaughtError) (fallback : String) : Option String :=
  match e with
  | CaughtError.axiosWithResponse m => m
  | CaughtError.other => some fallback

/-- `fetchUsers`, given the outcome of `axiosInstance.get('/users')`:
`set({ isLoading: true, error: null })`, then on success
`set({ users: data })`, on failure `set({ error: errMsg })`, and in the
`finally` block `set({ isLoading: false })`. -/
def fetchUsers (r : FetchOutcome User) (s : ChatState) : ChatState :=
  let s1 := fetchBegin s
  let s2 :=
    match r with
    | FetchOutcome.success data => { s1 with users := data }
    | FetchOutcome.failure e => { s1 with error := errMsg e "Error al obtener usuarios" }
  { s2 with isLoading := false }

/-- `fetchMessages(userId)`, given the outcome of
`axiosInstance.get('/users/messages/' + userId)`: same shape as
`fetchUsers`, writing `messages` on success and the fallback
`'Error al obtener mensajes'` on failure. -/
def fetchMessages (userId : String) (r : FetchOutcome Message) (s : ChatState) : ChatState :=
  let _ := userId
  let s1 := fetchBegin s
  let s2 :=
    match r with
    | FetchOutcome.success data => { s1 with messages := data }
    | FetchOutcome.failure e => { s1 with error := errMsg e "Error al obtener mensajes" }
  { s2 with isLoading := false }

/-- `initSocket(userId)`: `if (get().isConnected) return;` — otherwise create
the socket, `socket.connect()`, `socket.emit('user_connected', userId)`,
register the handlers, and `set({ socket, isConnected: true })`. -/
def initSocket (userId : String) (s : ChatState) : ChatState × List Effect :=
  if s.isConnected then (s, [])
  else
    ({ s with socket := some { userId := userId }, isConnected := true },
     [Effect.connectSocket, Effect.emitUserConnected userId])

/-- `disconnectSocket`: if a socket is stored, `socket.disconnect()` and
`set({ socket: null, isConnected: false })`; otherwise do nothing. -/
def disconnectSocket (s : ChatState) : ChatState × List Effect :=
  match s.socket with
  | some _ => ({ s with socket := none, isConnected := false }, [Effect.disconnect])
  | none => (s, [])

/-- `sendMessage(receiverId, senderId, content)`: if a socket is stored,
`socket.emit('send_message', { receiverId, senderId, content })`; the store
state is never written. -/
def sendMessage (receiverId senderId content : String) (s : ChatState) : ChatState × List Effect :=
  match s.socket with
  | some _ => (s, [Effect.emitSendMessage receiverId senderId content])
  | none => (s, [])

/-- Handler for `users_online`: `set({ onlineUsers: new Set(users) })`. -/
def onUsersOnline (users : List String) (s : ChatState) : ChatState :=
  { s with onlineUsers := users.toFinset }

/-- Handler for `activities`:
`set({ userActivities: new Map(activities) })`. -/
def onActivities (activities : List (String × String)) (s : ChatState) : ChatState :=
  { s with userActivities := jsMapFromList activities }

/-- Handler for `user_connected`:
`onlineUsers: new Set([...state.onlineUsers, id])` — the previous set plus
`id`. -/
def onUserConnected (id : String) (s : ChatState) : ChatState :=
  { s with onlineUsers := insert id s.onlineUsers }

/-- Handler for `user_disconnected`: copy the set and `delete(id)`. -/
def onUserDisconnected (id : String) (s : ChatState) : ChatState :=
  { s with onlineUsers := s.onlineUsers.erase id }

/-- Handler for `receive_message`:
`messages: [...state.messages, message]`. -/
def onReceiveMessage (m : Message) (s : ChatState) : ChatState :=
  { s with messages := s.messages ++ [m] }

/-- Handler for `message_sent`:
`messages: [...state.messages, message]`. -/
def onMessageSent (m : Message) (s : ChatState) : ChatState :=
  { s with messages := s.messages ++ [m] }

/-- Handler for `activity_updated`: copy the map and
`set(userId, activity)`. -/
def onActivityUpdated (userId activity : String) (s : ChatState) : ChatState :=
  { s with userActivities := jsMapSet s.userActivities userId activity }

/-- One interaction with the store: a public store operation (with the
outcome of its network call, where it makes one) or an incoming real-time
event delivered to the corresponding registered handler. -/
inductive Op where
  | opFetchUsers (r : FetchOutcome User)
  | opFetchMessages (userId : String) (r : FetchOutcome Message)
  | opInitSocket (userId : String)
  | opDisconnectSocket
  | opSendMessage (receiverId senderId content : String)
  | opSetSelectedUser (u : Option User)
  | evUsersOnline (l : List String)
  | evActivities (l : List (String × String))
  | evUserConnected (id : String)
  | evUserDisconnected (id : String)
  | evReceiveMessage (m : Message)
  | evMessageSent (m : Message)
  | evActivityUpdated (userId activity : String)

/-- The step function of the store: apply one operation or event to the
state, returning the new state and the outbound socket effects performed. -/
def step (s : ChatState) : Op → ChatState × List Effect
  | Op.opFetchUsers r => (fetchUsers r s, [])
  | Op.opFetchMessages uid r => (fetchMessages uid r s, [])
  | Op.opInitSocket uid => initSocket uid s
  | Op.opDisconnectSocket => disconnectSocket s
  | Op.opSendMessage rid sid c => sendMessage rid sid c s
  | Op.opSetSelectedUser u => (setSelectedUser u s, [])
  | Op.evUsersOnline l => (onUsersOnline l s, [])
  | Op.evActivities l => (onActivities l s, [])
  | Op.evUserConnected i => (onUserConnected i s, [])
  | Op.evUserDisconnected i => (onUserDisconnected i s, [])
  | Op.evReceiveMessage m => (onReceiveMessage m s, [])
  | Op.evMessageSent m => (onMessageSent m s, [])
  | Op.evActivityUpdated u a => (onActivityUpdated u a s, [])

/-- Run a sequence of operations from a state. -/
def runOps (s : ChatState) : List Op → ChatState
  | [] => s
  | op :: rest => runOps (step s op).1 rest

/-- The concatenated effect trace of a sequence of operations. -/
def traceFrom (s : ChatState) : List Op → List Effect
  | [] => []
  | op :: rest => (step s op).2 ++ traceFrom (step s op).1 rest

/-- Connection-discipline checker for effect traces.  The accumulator says
whether a connection is currently open; a `connectSocket` while one is open
is the violation (`none`), a `disconnect` closes it, emits leave it alone.
`wfStep tr b = some b2` means the trace `tr`, started with connection state
`b`, never opens a second connection over an open one and ends with
connection state `b2`. -/
def wfStep : List Effect → Bool → Option Bool
  | [], opened => some opened
  | Effect.connectSocket :: rest, opened => if opened then none else wfStep rest true
  | Effect.disconnect :: rest, _ => wfStep rest false
  | Effect.emitUserConnected _ :: rest, opened => wfStep rest opened
  | Effect.emitSendMessage _ _ _ :: rest, opened => wfStep rest opened

/-- The last value paired with key `k` in a raw entry list: the lookup
semantics `new Map(entries)` gives to duplicate keys (later entries win). -/
def lookupLast : List (String × String) → String → Option String
  | [], _ => none
  | kv :: rest, k =>
    match lookupLast rest k with
    | some v => some v
    | none => if kv.1 = k then some kv.2 else none

/-- The store invariant relating the two connection fields: the connected
flag is set exactly when a socket object is stored. -/
@[reducible] def connInv (s : ChatState) : Prop :=
  s.isConnected = true ↔ s.socket ≠ none

/-- A concrete reachable state whose connection is open. -/
def sampleConnected : ChatState := (step initialState (Op.opInitSocket "u")).1

theorem jsMapGet_jsMapSet_self (m : List (String × String)) (k v : String) :
    jsMapGet (jsMapSet m k v) k = some v := by
  induction m with
  | nil => simp [jsMapSet, jsMapGet]
  | cons kv rest ih =>
    by_cases h : kv.1 = k
    · simp [jsMapSet, h, jsMapGet]
    · simp [jsMapSet, h, jsMapGet, ih]

theorem jsMapGet_jsMapSet_other (m : List (String × String)) (k v k2 : String)
    (h : k2 ≠ k) : jsMapGet (jsMapSet m k v) k2 = jsMapGet m k2 := by
  induction m with
  | nil => simp [jsMapSet, jsMapGet, Ne.symm h]
  | cons kv rest ih =>
    by_cases hk : kv.1 = k
    · simp [jsMapSet, hk, jsMapGet, Ne.symm h]
    · simp [jsMapSet, hk, jsMapGet, ih]

theorem jsMapGet_foldl (l : List (String × String)) :
    ∀ (acc : List (String × String)) (k : String),
      jsMapGet (l.foldl (fun m kv => jsMapSet m kv.1 kv.2) acc) k =
        (match lookupLast l k with
         | some v => some v
         | none => jsMapGet acc k) := by
  induction l with
  | nil => intro acc k; rfl
  | cons kv rest ih =>
    intro acc k
    simp only [List.foldl, lookupLast]
    rw [ih]
    cases hrest : lookupLast rest k with
    | some v => simp
    | none =>
      simp only
      by_cases hk : kv.1 = k
      · rw [hk] at *
        simp [jsMapGet_jsMapSet_self]
      · simp [hk, jsMapGet_jsMapSet_other acc kv.1 kv.2 k (fun he => hk he.symm)]

theorem jsMapGet_jsMapFromList (l : List (String × String)) (k : String) :
    jsMapGet (jsMapFromList l) k = lookupLast l k := by
  have h := jsMapGet_foldl l [] k
  rw [jsMapFromList] at *
  rw [h]
  cases lookupLast l k <;> rfl

theorem wfStep_append (l1 l2 : List Effect) :
    ∀ b, wfStep (l1 ++ l2) b = (wfStep l1 b).bind fun b2 => wfStep l2 b2 := by
  induction l1 with
  | nil => intro b; rfl
  | cons e rest ih =>
    intro b
    cases e <;> cases b <;> simp [wfStep, ih]

theorem step_wf (s : ChatState) (op : Op) :
    wfStep (step s op).2 s.isConnected = some (step s op).1.isConnected := by
  cases op with
  | opFetchUsers r => cases r <;> rfl
  | opFetchMessages uid r => cases r <;> rfl
  | opInitSocket uid =>
    cases hc : s.isConnected <;> simp [step, initSocket, hc, wfStep]
  | opDisconnectSocket =>
    cases hs : s.socket <;> simp [step, disconnectSocket, hs, wfStep]
  | opSendMessage rid sid c =>
    cases hs : s.socket <;> simp [step, sendMessage, hs, wfStep]
  | opSetSelectedUser u => rfl
  | evUsersOnline l => rfl
  | evActivities l => rfl
  | evUserConnected i => rfl
  | evUserDisconnected i => rfl
  | evReceiveMessage m => rfl
  | evMessageSent m => rfl
  | evActivityUpdated u a => rfl

theorem run_wf (ops : List Op) : ∀ s : ChatState,
    wfStep (traceFrom s ops) s.isConnected = some (runOps s ops).isConnected := by
  induction ops with
  | nil => intro s; rfl
  | cons op rest ih =>
    intro s
    simp [traceFrom, runOps, wfStep_append, step_wf, ih]

theorem connInv_step (s : ChatState) (op : Op) (h : connInv s) :
    connInv (step s op).1 := by
  cases op with
  | opFetchUsers r => cases r <;> simpa [step, fetchUsers, fetchBegin] using h
  | opFetchMessages uid r => cases r <;> simpa [step, fetchMessages, fetchBegin] using h
  | opInitSocket uid =>
    cases hc : s.isConnected
    · simp [step, initSocket, hc, connInv]
    · simpa [step, initSocket, hc] using h
  | opDisconnectSocket =>
    cases hs : s.socket
    · simpa [step, disconnectSocket, hs] using h
    · simp [step, disconnectSocket, hs, connInv]
  | opSendMessage rid sid c =>
    cases hs : s.socket <;> simpa [step, sendMessage, hs] using h
  | opSetSelectedUser u => simpa [step, setSelectedUser] using h
  | evUsersOnline l => simpa [step, onUsersOnline] using h
  | evActivities l => simpa [step, onActivities] using h
  | evUserConnected i => simpa [step, onUserConnected] using h
  | evUserDisconnected i => simpa [step, onUserDisconnected] using h
  | evReceiveMessage m => simpa [step, onReceiveMessage] using h
  | evMessageSent m => simpa [step, onMessageSent] using h
  | evActivityUpdated u a => simpa [step, onActivityUpdated] using h

theorem connInv_run (ops : List Op) : ∀ s : ChatState, connInv s → connInv (runOps s ops) := by
  induction ops with
  | nil => intro s h; exact h
  | cons op rest ih =>
    intro s h
    exact ih (step s op).1 (connInv_step s op h)

/-- Claim C1 (counterexample): the claim says every failed response stores an
error string.  But when the failure is an axios error whose server response
body has no `message` field, the code stores `response.data.message`, which
is undefined: no error string is stored. -/
theorem claim_C1_counterexample :
    ¬ ∃ m : String,
      (fetchUsers (FetchOutcome.failure (CaughtError.axiosWithResponse none))
        initialState).error = some m := by
  simp [fetchUsers, fetchBegin, errMsg, initialState]

/-- Claim C1 (amended): for both fetch operations, a successful response
replaces the relevant list with the payload; every completion (success or
failure) leaves `isLoading` false; and a failed response stores an error
string whenever the failure is not an axios error whose response body lacks
a `message` field. -/
theorem claim_C1 :
    ∀ (s : ChatState) (uid : String),
      (∀ data : List User,
        (fetchUsers (FetchOutcome.success data) s).users = data ∧
        (fetchUsers (FetchOutcome.success data) s).isLoading = false) ∧
      (∀ data : List Message,
        (fetchMessages uid (FetchOutcome.success data) s).messages = data ∧
        (fetchMessages uid (FetchOutcome.success data) s).isLoading = false) ∧
      (∀ e : CaughtError,
        (fetchUsers (FetchOutcome.failure e) s).isLoading = false ∧
        (fetchMessages uid (FetchOutcome.failure e) s).isLoading = false) ∧
      (∀ e : CaughtError, e ≠ CaughtError.axiosWithResponse none →
        (∃ m, (fetchUsers (FetchOutcome.failure e) s).error = some m) ∧
        (∃ m, (fetchMessages uid (FetchOutcome.failure e) s).error = some m)) := by
  intro s uid
  refine ⟨fun data => ⟨rfl, rfl⟩, fun data => ⟨rfl, rfl⟩, fun e => ⟨rfl, rfl⟩, ?_⟩
  intro e he
  cases e with
  | axiosWithResponse m =>
    cases m with
    | none => exact absurd rfl he
    | some v => exact ⟨⟨v, rfl⟩, ⟨v, rfl⟩⟩
  | other =>
    exact ⟨⟨"Error al obtener usuarios", rfl⟩, ⟨"Error al obtener mensajes", rfl⟩⟩

/-- Claim C1 (witness): a concrete failing call (a non-axios error) stores an
error string in both operations. -/
theorem claim_C1_witness :
    (∃ m, (fetchUsers (FetchOutcome.failure CaughtError.other) initialState).error = some m) ∧
    (∃ m, (fetchMessages "u" (FetchOutcome.failure CaughtError.other) initialState).error = some m) :=
  (claim_C1 initialState "u").2.2.2 CaughtError.other (by decide)

/-- Claim C2 (counterexample): the claim says that whenever the failure does
not carry a server response containing a message, the fallback string is
stored.  But for an axios error carrying a response without a `message`
field, the fallback is not used: the stored error is undefined, not the
fallback string. -/
theorem claim_C2_counterexample :
    (fetchUsers (FetchOutcome.failure (CaughtError.axiosWithResponse none))
        initialState).error ≠ some "Error al obtener usuarios" ∧
    (fetchMessages "u" (FetchOutcome.failure (CaughtError.axiosWithResponse none))
        initialState).error ≠ some "Error al obtener mensajes" := by
  constructor <;> simp [fetchUsers, fetchMessages, fetchBegin, errMsg, initialState]

/-- Claim C2 (amended): on a failing fetch, the stored error equals the
server response's `message` field whenever the failure is an axios error
carrying a server response — including the case where that field is absent,
in which case the error is unset rather than the fallback; the fixed
fallback string is stored exactly when the failure is not an axios error
carrying a response. -/
theorem claim_C2 :
    ∀ (s : ChatState) (uid m : String),
      ((fetchUsers (FetchOutcome.failure (CaughtError.axiosWithResponse (some m))) s).error
          = some m) ∧
      ((fetchMessages uid (FetchOutcome.failure (CaughtError.axiosWithResponse (some m))) s).error
          = some m) ∧
      ((fetchUsers (FetchOutcome.failure (CaughtError.axiosWithResponse none)) s).error
          = none) ∧
      ((fetchMessages uid (FetchOutcome.failure (CaughtError.axiosWithResponse none)) s).error
          = none) ∧
      ((fetchUsers (FetchOutcome.failure CaughtError.other) s).error
          = some "Error al obtener usuarios") ∧
      ((fetchMessages uid (FetchOutcome.failure CaughtError.other) s).error
          = some "Error al obtener mensajes") := by
  intro s uid m
  exact ⟨rfl, rfl, rfl, rfl, rfl, rfl⟩

/-- Claim C3: a connection is opened at most once per session.  First, from
any state whose connected flag is set, `initSocket` performs no effect at
all (in particular opens no connection) and returns the state unchanged.
Second, over every sequence of operations from the initial state, the
produced effect trace never performs `connectSocket` while a connection is
already open (`wfStep` succeeds), and the trace's final connection state is
the store's connected flag. -/
theorem claim_C3 :
    (∀ (s : ChatState) (uid : String), s.isConnected = true →
      step s (Op.opInitSocket uid) = (s, [])) ∧
    (∀ ops : List Op,
      wfStep (traceFrom initialState ops) false
        = some (runOps initialState ops).isConnected) := by
  constructor
  · intro s uid h
    simp [step, initSocket, h]
  · intro ops
    exact run_wf ops initialState

/-- Claim C3 (witness): from a concrete connected state, `initSocket` is a
no-op with no effects. -/
theorem claim_C3_witness :
    sampleConnected.isConnected = true ∧
    step sampleConnected (Op.opInitSocket "v") = (sampleConnected, []) :=
  ⟨rfl, claim_C3.1 sampleConnected "v" rfl⟩

/-- Claim C4: the message list is append-only under real-time events — both
`receive_message` and `message_sent` append the carried message at the end,
leaving existing messages and their order unchanged and performing no
deduplication (the equation holds even when `m` already occurs) — while a
`fetchMessages` success replaces the list wholesale with the payload. -/
theorem claim_C4 :
    ∀ (s : ChatState) (m : Message) (uid : String) (data : List Message),
      ((onReceiveMessage m s).messages = s.messages ++ [m]) ∧
      ((onMessageSent m s).messages = s.messages ++ [m]) ∧
      ((fetchMessages uid (FetchOutcome.success data) s).messages = data) := by
  intro s m uid data
  exact ⟨rfl, rfl, rfl⟩

/-- Claim C5: a `users_online` snapshot replaces the online set with exactly
the elements of the received list; `user_connected u` yields the old set
plus `u`; `user_disconnected u` yields the old set minus `u`; and in the
incremental cases the membership of every other identifier is unchanged. -/
theorem claim_C5 :
    ∀ (s : ChatState) (L : List String) (u x k : String),
      (x ∈ (onUsersOnline L s).onlineUsers ↔ x ∈ L) ∧
      (x ∈ (onUserConnected u s).onlineUsers ↔ x ∈ s.onlineUsers ∨ x = u) ∧
      (x ∈ (onUserDisconnected u s).onlineUsers ↔ x ∈ s.onlineUsers ∧ x ≠ u) ∧
      (k ≠ u →
        ((k ∈ (onUserConnected u s).onlineUsers ↔ k ∈ s.onlineUsers) ∧
         (k ∈ (onUserDisconnected u s).onlineUsers ↔ k ∈ s.onlineUsers))) := by
  intro s L u x k
  refine ⟨?_, ?_, ?_, fun hk => ⟨?_, ?_⟩⟩
  · simp [onUsersOnline]
  · simp [onUserConnected, Finset.mem_insert, or_comm]
  · simp [onUserDisconnected, Finset.mem_erase, and_comm]
  · simp [onUserConnected, Finset.mem_insert, hk]
  · simp [onUserDisconnected, Finset.mem_erase, hk]

/-- Claim C5 (witness): for the concrete distinct identifiers `"b" ≠ "a"`,
the join and leave events for `"a"` do not change the membership of
`"b"`. -/
theorem claim_C5_witness :
    (("b" : String) ∈ (onUserConnected "a" initialState).onlineUsers ↔
      ("b" : String) ∈ initialState.onlineUsers) ∧
    (("b" : String) ∈ (onUserDisconnected "a" initialState).onlineUsers ↔
      ("b" : String) ∈ initialState.onlineUsers) :=
  (claim_C5 initialState [] "a" "x" "b").2.2.2 (by decide)

/-- Claim C6: an `activities` snapshot replaces the activity map wholesale
with the map built from the received pairs (so a lookup returns the last
value listed for that key), and an `activity_updated` event for user `u`
sets the entry at `u` to the new activity while every other key's mapping
is unchanged. -/
theorem claim_C6 :
    ∀ (s : ChatState) (P : List (String × String)) (u a k : String),
      ((onActivities P s).userActivities = jsMapFromList P) ∧
      (jsMapGet (onActivities P s).userActivities k = lookupLast P k) ∧
      (jsMapGet (onActivityUpdated u a s).userActivities u = some a) ∧
      (k ≠ u →
        jsMapGet (onActivityUpdated u a s).userActivities k
          = jsMapGet s.userActivities k) := by
  intro s P u a k
  refine ⟨rfl, ?_, ?_, fun hk => ?_⟩
  · exact jsMapGet_jsMapFromList P k
  · exact jsMapGet_jsMapSet_self s.userActivities u a
  · exact jsMapGet_jsMapSet_other s.userActivities u a k hk

/-- Claim C6 (witness): for the concrete distinct keys `"b" ≠ "a"`, an
activity update for `"a"` leaves the mapping of `"b"` unchanged. -/
theorem claim_C6_witness :
    jsMapGet (onActivityUpdated "a" "act" initialState).userActivities "b"
      = jsMapGet initialState.userActivities "b" :=
  (claim_C6 initialState [] "a" "act" "b").2.2.2 (by decide)

/-- Claim C7: the emitted real-time events of every operation are exactly: a
`user_connected` announcement carrying the userId when `initSocket` opens a
connection (none when already connected), and a `send_message` request
carrying receiver id, sender id and content from `sendMessage` exactly when
a socket exists; no other operation or handler emits anything. -/
theorem claim_C7 :
    ∀ (s : ChatState) (op : Op),
      (step s op).2.filter isEmit =
        (match op with
         | Op.opInitSocket uid =>
             if s.isConnected then [] else [Effect.emitUserConnected uid]
         | Op.opSendMessage rid sid c =>
             if s.socket.isSome then [Effect.emitSendMessage rid sid c] else []
         | _ => []) := by
  intro s op
  cases op with
  | opFetchUsers r => rfl
  | opFetchMessages uid r => rfl
  | opInitSocket uid =>
    cases hc : s.isConnected <;> simp [step, initSocket, hc, isEmit]
  | opDisconnectSocket =>
    cases hs : s.socket <;> simp [step, disconnectSocket, hs, isEmit]
  | opSendMessage rid sid c =>
    cases hs : s.socket <;> simp [step, sendMessage, hs, isEmit]
  | opSetSelectedUser u => rfl
  | evUsersOnline l => rfl
  | evActivities l => rfl
  | evUserConnected i => rfl
  | evUserDisconnected i => rfl
  | evReceiveMessage m => rfl
  | evMessageSent m => rfl
  | evActivityUpdated u a => rfl

/-- Claim C8: the invariant "the connected flag is set exactly when a socket
object is stored" holds in the initial state, is preserved by every store
operation and real-time event handler, and therefore holds after every
sequence of operations from the initial state. -/
theorem claim_C8 :
    connInv initialState ∧
    (∀ (s : ChatState) (op : Op), connInv s → connInv (step s op).1) ∧
    (∀ ops : List Op, connInv (runOps initialState ops)) := by
  refine ⟨by decide, connInv_step, ?_⟩
  intro ops
  exact connInv_run ops initialState (by decide)

/-- Claim C8 (witness): a concrete preservation instance — the invariant
holds in the initial state and after opening the socket from it. -/
theorem claim_C8_witness : connInv (step initialState (Op.opInitSocket "u")).1 :=
  claim_C8.2.1 initialState (Op.opInitSocket "u") (by decide)

/-- Claim C9: `sendMessage` never modifies any field of the store state, for
every argument triple and every state; with no stored socket it silently
performs nothing at all; and the sent message reaches the message list only
through a later `message_sent` event, whose handler appends it. -/
theorem claim_C9 :
    ∀ (s : ChatState) (rid sid c : String),
      ((sendMessage rid sid c s).1 = s) ∧
      (s.socket = none → sendMessage rid sid c s = (s, [])) ∧
      (∀ m : Message, (onMessageSent m s).messages = s.messages ++ [m]) := by
  intro s rid sid c
  refine ⟨?_, ?_, fun m => rfl⟩
  · cases hs : s.socket <;> simp [sendMessage, hs]
  · intro h
    simp [sendMessage, h]

/-- Claim C9 (witness): in the initial state, where no socket is stored,
`sendMessage` changes nothing and performs no effect. -/
theorem claim_C9_witness :
    sendMessage "r" "s" "c" initialState = (initialState, []) :=
  (claim_C9 initialState "r" "s" "c").2.1 rfl

/-- Claim C10: both fetch operations clear the error at their start (the
shared first `set` call sets `error` to null and `isLoading` to true), so a
successful completion always leaves `error` null regardless of its prior
value; and a failing call changes no field other than `error` and
`isLoading` — in particular `users` and `messages` are unchanged on
failure. -/
theorem claim_C10 :
    ∀ (s : ChatState) (uid : String) (dU : List User) (dM : List Message) (e : CaughtError),
      ((fetchBegin s).error = none ∧ (fetchBegin s).isLoading = true) ∧
      ((fetchUsers (FetchOutcome.success dU) s).error = none) ∧
      ((fetchMessages uid (FetchOutcome.success dM) s).error = none) ∧
      ((fetchUsers (FetchOutcome.failure e) s).users = s.users ∧
       (fetchUsers (FetchOutcome.failure e) s).messages = s.messages ∧
       (fetchUsers (FetchOutcome.failure e) s).socket = s.socket ∧
       (fetchUsers (FetchOutcome.failure e) s).isConnected = s.isConnected ∧
       (fetchUsers (FetchOutcome.failure e) s).onlineUsers = s.onlineUsers ∧
       (fetchUsers (FetchOutcome.failure e) s).userActivities = s.userActivities ∧
       (fetchUsers (FetchOutcome.failure e) s).selectedUser = s.selectedUser) ∧
      ((fetchMessages uid (FetchOutcome.failure e) s).users = s.users ∧
       (fetchMessages uid (FetchOutcome.failure e) s).messages = s.messages ∧
       (fetchMessages uid (FetchOutcome.failure e) s).socket = s.socket ∧
       (fetchMessages uid (FetchOutcome.failure e) s).isConnected = s.isConnected ∧
       (fetchMessages uid (FetchOutcome.failure e) s).onlineUsers = s.onlineUsers ∧
       (fetchMessages uid (FetchOutcome.failure e) s).userActivities = s.userActivities ∧
       (fetchMessages uid (FetchOutcome.failure e) s).selectedUser = s.selectedUser) := by
  intro s uid dU dM e
  exact ⟨⟨rfl, rfl⟩, rfl, rfl,
    ⟨rfl, rfl, rfl, rfl, rfl, rfl, rfl⟩,
    ⟨rfl, rfl, rfl, rfl, rfl, rfl, rfl⟩⟩
